import Mathlib

/-!
# Shallow embedding of the MKK bingo core (src/workers.py, src/main.py, src/config.py)

This file embeds, definition by definition, the parts of the repository that the
verified claims are about:

* `Settings` — the fixed configuration of `src/config.py` (commission rates,
  jackpot threshold, call interval).
* `verify_win` — `ClaimProcessor._verify_win` (workers.py lines 259-271).
* `process_claim` — `ClaimProcessor.process_claim` (workers.py lines 163-257),
  including the lock acquire/release protocol and the settlement path.
* `call_number` — `RoundWorker._call_number` (workers.py lines 81-112).
* `end_round` / `process_round` — `RoundWorker._end_round` and `_process_round`.
* `process_rounds_cycle` / `round_loop` — the scheduler poll loop
  (`RoundWorker._round_loop` and `_process_rounds`).
* `buy_card` — the `/api/buy_card` handler (main.py lines 85-170).

Machine-level conventions: Python floats carrying money amounts are modelled as
`Rat` (no claim here depends on binary-float rounding); database rows are records
in explicit lists; `db.query(...).first()` is `List.find?`; the value returned by
Redis `SET NX` (whether the round lock was obtained) and the rate-limit check are
boolean parameters; the random index chosen by `random.SystemRandom().choice` is
a natural-number parameter; a Python exception is the `Except.error` branch.
-/

namespace MKK

/-- Round lifecycle status (database.py line 55: waiting, active, completed, jackpot). -/
inductive RoundStatus where
  | waiting
  | active
  | completed
  | jackpot
deriving DecidableEq, Repr

/-- Statuses `completed` and `jackpot` are the terminal statuses of a round. -/
def RoundStatus.isTerminal : RoundStatus → Bool
  | RoundStatus.completed => true
  | RoundStatus.jackpot => true
  | _ => false

/-- The fixed configuration of config.py (lines 39-44).  `HOUSE_COMMISSION`,
`WINNER_COMMISSION` and `JACKPOT_COMMISSION` are hard-coded literals;
`NUMBER_CALL_INTERVAL` and `JACKPOT_THRESHOLD` are read from the environment
with defaults 5 and 40. -/
structure Settings where
  NUMBER_CALL_INTERVAL : Nat
  HOUSE_COMMISSION : Rat
  WINNER_COMMISSION : Rat
  JACKPOT_COMMISSION : Rat
  JACKPOT_THRESHOLD : Nat
deriving DecidableEq, Repr

/-- The configuration with every environment variable left at its default. -/
def defaultSettings : Settings :=
  { NUMBER_CALL_INTERVAL := 5
    HOUSE_COMMISSION := 0.20
    WINNER_COMMISSION := 0.70
    JACKPOT_COMMISSION := 0.10
    JACKPOT_THRESHOLD := 40 }

/-- workers.py line 204 reads the attribute `settings.JACKPO​COMMISSION`:
between `JACKPO` and `COMMISSION` the source file contains the character U+200B
(zero-width space, bytes `e2 80 8b`).  `Settings` (config.py line 43) defines
`JACKPOT_COMMISSION` but no attribute of that name, and U+200B is not a legal
Python identifier character, so evaluating this expression can only fail (CPython
in fact refuses to tokenize the file).  The lookup is modelled as returning
`none`. -/
def settings_JACKPO_zwsp_COMMISSION (_s : Settings) : Option Rat := none

/-- A row of the `rounds` table (database.py lines 50-68), restricted to the
columns the core logic reads or writes. -/
structure RoundRec where
  id : Nat
  room_id : Nat
  status : RoundStatus
  total_pool : Rat
  jackpot_pool : Rat
  winner_id : Option Nat
  winner_amount : Rat
  numbers_called : List Nat
deriving DecidableEq, Repr

/-- A row of the `cards` table (database.py lines 70-86). -/
structure CardRec where
  id : Nat
  round_id : Nat
  user_id : Nat
  numbers : List (List Nat)
  claimed : Bool
deriving DecidableEq, Repr

/-- A row of the `users` table (database.py lines 19-35), restricted to the
columns the core logic touches. -/
structure UserRec where
  id : Nat
  telegram_id : String
  wallet_balance : Rat
  is_blocked : Bool
deriving DecidableEq, Repr

/-- A row of the `rooms` table (database.py lines 37-48). -/
structure RoomRec where
  id : Nat
  card_price : Rat
deriving DecidableEq, Repr

/-- A row of the `transactions` ledger (database.py lines 98-112). -/
structure TransactionRec where
  user_id : Nat
  amount : Rat
  type : String
deriving DecidableEq, Repr

/-- The persistent store: the tables the embedded operations read and write. -/
structure DB where
  rooms : List RoomRec
  rounds : List RoundRec
  cards : List CardRec
  users : List UserRec
  transactions : List TransactionRec
deriving DecidableEq, Repr

/-- Model of `db.query(Round).filter(Round.id == round_id).first()`. -/
def findRound (db : DB) (round_id : Nat) : Option RoundRec :=
  db.rounds.find? (fun r => r.id == round_id)

/-- Model of `db.query(Card).filter(Card.id == card_id, Card.user_id == user_id).first()`
(workers.py line 177): the filter mentions the card id and the owner, never the
round the card was bought for. -/
def findCard (db : DB) (card_id user_id : Nat) : Option CardRec :=
  db.cards.find? (fun c => c.id == card_id && c.user_id == user_id)

/-- Model of `db.query(User).filter(User.id == user_id).first()`. -/
def findUser (db : DB) (user_id : Nat) : Option UserRec :=
  db.users.find? (fun u => u.id == user_id)

/-- Model of `db.query(Room).filter(Room.id == room_id).first()`. -/
def findRoom (db : DB) (room_id : Nat) : Option RoomRec :=
  db.rooms.find? (fun r => r.id == room_id)

/-- Embedding of `ClaimProcessor._verify_win` (workers.py lines 259-271): walk the card's
rows; the first row all five of whose entries are in the called set wins.
`called_set = set(called_numbers)` is only used for membership tests, so list
membership is an exact model. -/
def verify_win (card_numbers : List (List Nat)) (called_numbers : List Nat) :
    Bool × List Nat :=
  match card_numbers with
  | [] => (false, [])
  | row :: rest =>
      let marked := (row.filter (fun num => called_numbers.contains num)).length
      if marked == 5 then (true, row)
      else verify_win rest called_numbers

/-- workers.py line 198: `is_jackpot = len(round.numbers_called) <= 40`.  The
bound is the literal `40`; `settings.JACKPOT_THRESHOLD` is not consulted. -/
def is_jackpot_of (numbers_called : List Nat) : Bool :=
  decide (numbers_called.length ≤ 40)

/-- A Python exception escaping an embedded operation. -/
inductive PyErr where
  | attributeError
  | nameError
deriving DecidableEq, Repr

/-- The dictionary `process_claim` returns: `success`, `message`, and on the
success path also `amount` and `is_jackpot`. -/
structure ClaimResult where
  success : Bool
  message : String
  amount : Option Rat
  is_jackpot : Option Bool
deriving DecidableEq, Repr

/-- The failure dictionary `{'success': False, 'message': m}`. -/
def mkFailure (m : String) : ClaimResult :=
  { success := false, message := m, amount := none, is_jackpot := none }

/-- Observable lock and status effects of an operation, in program order. -/
inductive Event where
  | acquire (name : String)
  | release (name : String)
  | setStatus (round_id : Nat) (st : RoundStatus)
deriving DecidableEq, Repr

/-- A fresh autoincrement id for a row inserted into `rounds`. -/
def freshRoundId (db : DB) : Nat :=
  (db.rounds.map (fun r => r.id)).foldr max 0 + 1

/-- Replace the round with the given id. -/
def updateRound (db : DB) (r : RoundRec) : DB :=
  { db with rounds := db.rounds.map (fun x => if x.id == r.id then r else x) }

/-- Replace the card with the given id. -/
def updateCard (db : DB) (c : CardRec) : DB :=
  { db with cards := db.cards.map (fun x => if x.id == c.id then c else x) }

/-- Replace the user with the given id. -/
def updateUser (db : DB) (u : UserRec) : DB :=
  { db with users := db.users.map (fun x => if x.id == u.id then u else x) }

/-- Embedding of `ClaimProcessor.process_claim` (workers.py lines 163-257).

`lockAcquired` is the boolean Redis `SET NX` returns for the lock named
`claim:{round_id}` (line 169).  The function returns the Python result (or the
exception that escapes), the store after the call, and the lock/status event
trace.  The `finally:` block releases the lock on every path that acquired it.

On the winning path the code evaluates `settings.JACKPO​COMMISSION`
(line 204, see `settings_JACKPO_zwsp_COMMISSION`); the lookup fails, so the
settlement block below it (lines 206-254) is transcribed but unreachable. -/
def process_claim (s : Settings) (lockAcquired : Bool)
    (round_id card_id user_id : Nat) (db : DB) :
    Except PyErr ClaimResult × DB × List Event :=
  if !lockAcquired then
    (Except.ok (mkFailure "Claim is being processed"), db, [])
  else
    let lockName := "claim:" ++ toString round_id
    let acq := Event.acquire lockName
    let rel := Event.release lockName
    match findRound db round_id, findCard db card_id user_id with
    | none, _ =>
        (Except.ok (mkFailure "Invalid round or card"), db, [acq, rel])
    | some _, none =>
        (Except.ok (mkFailure "Invalid round or card"), db, [acq, rel])
    | some round, some card =>
      if round.status ≠ RoundStatus.active then
        (Except.ok (mkFailure "Round is not active"), db, [acq, rel])
      else if card.claimed then
        (Except.ok (mkFailure "Card already claimed"), db, [acq, rel])
      else if !(verify_win card.numbers round.numbers_called).1 then
        (Except.ok (mkFailure "No winning line yet"), db, [acq, rel])
      else
        -- Check if jackpot (win in ≤40 numbers) — line 198
        let is_jackpot := is_jackpot_of round.numbers_called
        -- Calculate winnings — lines 201-206
        let total_pool := round.total_pool
        let _house_cut := total_pool * s.HOUSE_COMMISSION
        let winner_cut := total_pool * s.WINNER_COMMISSION
        match settings_JACKPO_zwsp_COMMISSION s with
        | none =>
            -- line 204 raises: no attribute of that name exists
            (Except.error PyErr.attributeError, db, [acq, rel])
        | some jackpot_commission =>
            let jackpot_cut := total_pool * jackpot_commission
            let winner_amount := winner_cut + (if is_jackpot then jackpot_cut else 0)
            -- Update round — lines 209-212
            let newStatus := if is_jackpot then RoundStatus.jackpot else RoundStatus.completed
            let round' := { round with
              status := newStatus
              winner_id := some user_id
              winner_amount := winner_amount }
            -- Update card — line 215
            let card' := { card with claimed := true }
            match findUser db user_id with
            | none =>
                -- line 219 would raise on `None.wallet_balance`
                (Except.error PyErr.attributeError, db, [acq, rel])
            | some user =>
                -- Update user wallet — line 219
                let user' := { user with wallet_balance := user.wallet_balance + winner_amount }
                -- Create transaction — lines 222-227
                let txn : TransactionRec :=
                  { user_id := user_id
                    amount := winner_amount
                    type := if is_jackpot then "jackpot" else "win" }
                -- Create next round — lines 230-235
                let next : RoundRec :=
                  { id := freshRoundId db
                    room_id := round.room_id
                    status := RoundStatus.waiting
                    total_pool := 0
                    jackpot_pool := 0
                    winner_id := none
                    winner_amount := 0
                    numbers_called := [] }
                let db' := updateUser (updateCard (updateRound db round') card') user'
                let db'' := { db' with
                  transactions := db'.transactions ++ [txn]
                  rounds := (updateRound db round').rounds ++ [next] }
                (Except.ok
                  { success := true
                    message := if is_jackpot then "Jackpot!" else "Winner!"
                    amount := some winner_amount
                    is_jackpot := some is_jackpot },
                 db'', [acq, Event.setStatus round.id newStatus, rel])

/-! ## Round scheduler (workers.py, `RoundWorker`) -/

/-- workers.py line 85: `available = [n for n in range(1, 76) if n not in called]`
with `called = set(round.numbers_called)`.  Membership in the set equals
membership in the list, so the complement is computed against the list. -/
def availableOf (called : List Nat) : List Nat :=
  (List.range' 1 75).filter (fun n => !called.contains n)

/-- Embedding of `RoundWorker._call_number` (workers.py lines 81-112), effect on the round.

The call `list(called) + [number]` at line 101 rebuilds the stored list from the
Python set `called = set(round.numbers_called)` (line 84).  A Python set is
unordered, so the enumeration `list(called)` is passed in as the parameter
`perm`; the theorems constrain it exactly by what Python guarantees, namely that
it lists the distinct already-called values in some order
(`perm.Perm round.numbers_called.dedup`).  The index the secure random source
picks inside `choice(available)` is the parameter `k`.  Returns `none` when
`available` is empty (lines 87-88: the round is left untouched). -/
def call_number (perm : List Nat) (k : Nat) (round : RoundRec) :
    Option (Nat × RoundRec) :=
  let available := availableOf round.numbers_called
  if available.isEmpty then none
  else
    let number := available.getD (k % available.length) 0
    some (number, { round with numbers_called := perm ++ [number] })

/-- Embedding of `RoundWorker._end_round` (workers.py lines 128-142): set the status to
`completed` and record the terminal write in the event trace.  The method
performs no lock acquisition of any kind — the trace holds the bare status
write. -/
def end_round (round : RoundRec) : RoundRec × List Event :=
  ({ round with status := RoundStatus.completed },
   [Event.setStatus round.id RoundStatus.completed])

/-- What `RoundWorker._process_round` (workers.py lines 61-79) decides to do
with an active round: end it once 75 numbers are called, otherwise call a
number unless the last call is more recent than the configured interval.
`elapsed` is `(datetime.utcnow() - last_call.called_at).total_seconds()` for the
most recent `CalledNumber`, or `none` when the round has no calls yet. -/
inductive SchedulerStep where
  | endedRound
  | skipped
  | calledNumber
deriving DecidableEq, Repr

/-- The dispatch of `RoundWorker._process_round`. -/
def process_round (interval : Nat) (elapsed : Option Nat) (round : RoundRec) :
    SchedulerStep :=
  if round.numbers_called.length ≥ 75 then SchedulerStep.endedRound
  else
    match elapsed with
    | some t => if t < interval then SchedulerStep.skipped else SchedulerStep.calledNumber
    | none => SchedulerStep.calledNumber

/-- Lock-discipline check over an event trace: starting from the given held-lock
list, every terminal status write for round `rid` must happen while the lock
`claim:{rid}` is held. -/
def lockSafeFrom : List String → List Event → Bool
  | _, [] => true
  | held, Event.acquire n :: es => lockSafeFrom (n :: held) es
  | held, Event.release n :: es => lockSafeFrom (held.erase n) es
  | held, Event.setStatus rid st :: es =>
      (!st.isTerminal || held.contains ("claim:" ++ toString rid)) &&
        lockSafeFrom held es

/-- Lock discipline starting with no lock held. -/
def lockSafe (es : List Event) : Bool := lockSafeFrom [] es

/-- The locks still held after a trace, starting from a given held-lock list. -/
def locksAfter : List String → List Event → List String
  | held, [] => held
  | held, Event.acquire n :: es => locksAfter (n :: held) es
  | held, Event.release n :: es => locksAfter (held.erase n) es
  | held, Event.setStatus _ _ :: es => locksAfter held es

/-- The body of the `for round in active_rounds:` loop of
`RoundWorker._process_rounds` (workers.py lines 47-48).  There is no
`try`/`except` inside the loop, so the first round whose processing raises
(`fails r = true` models a store or transport error there) aborts the whole
cycle: the rounds after it in the scan are not processed.  Returns the list of
rounds processed in the cycle and whether the cycle raised. -/
def process_rounds_cycle (fails : Nat → Bool) : List Nat → List Nat × Bool
  | [] => ([], false)
  | r :: rest =>
      if fails r then ([], true)
      else
        let p := process_rounds_cycle fails rest
        (r :: p.1, p.2)

/-- Embedding of `RoundWorker._round_loop` (workers.py lines 28-35): while the running flag
holds, run one poll cycle inside `try`/`except` (the except swallows the
cycle's exception) and continue.  Each poll is modelled by the pair of the
running flag read at the top of the iteration and the round ids scanned that
cycle; the loop exits at the first poll whose flag is false. -/
def round_loop (fails : Nat → Bool) : List (Bool × List Nat) → List (List Nat × Bool)
  | [] => []
  | (running, ids) :: polls =>
      if running then process_rounds_cycle fails ids :: round_loop fails polls
      else []

/-! ## The `/api/buy_card` handler (main.py lines 85-170) -/

/-- main.py imports (lines 1-17): fastapi, sqlalchemy.orm, logging, json,
datetime, and the project modules — the module `random` is never imported, so
the name `random` used at line 128 is unbound in module `main` and evaluating
`random.SystemRandom()` raises `NameError`.  The binding is modelled as the
missing value `none`; were it bound, it would supply the stream of random
indices the generation loop consumes. -/
def main_random_module : Option (List Nat) := none

/-- Model of `random.SystemRandom().choice(available)` given the chosen index. -/
def sr_choice (available : List Nat) (k : Nat) : Nat :=
  available.getD (k % available.length) 0

/-- The inner `for _ in range(5):` loop of the card generator (main.py lines
126-130): pick (when the pool is nonempty) a number, remove it from the pool,
append it to the row. -/
def genRow : Nat → List Nat → List Nat → List Nat × List Nat × List Nat
  | 0, picks, available => ([], picks, available)
  | n + 1, picks, available =>
      if available.isEmpty then genRow n picks available
      else
        let num := sr_choice available (picks.headD 0)
        let rest := genRow n picks.tail (available.erase num)
        (num :: rest.1, rest.2.1, rest.2.2)

/-- The card generator (main.py lines 121-131): three rows of five drawn from a
shrinking pool `1..75`, each row sorted before being stored. -/
def genCard (picks : List Nat) : List (List Nat) :=
  let available0 := List.range' 1 75
  let g1 := genRow 5 picks available0
  let g2 := genRow 5 g1.2.1 g1.2.2
  let g3 := genRow 5 g2.2.1 g2.2.2
  [g1.1.mergeSort, g2.1.mergeSort, g3.1.mergeSort]

/-- An error escaping the handler: an HTTP error response or a Python
exception. -/
inductive ApiErr where
  | http (status : Nat) (detail : String)
  | pyErr (e : PyErr)
deriving DecidableEq, Repr

/-- The success body of `/api/buy_card`. -/
structure BuyResult where
  card_id : Nat
  numbers : List (List Nat)
  balance : Rat
deriving DecidableEq, Repr

/-- A fresh autoincrement id for a row inserted into `cards`. -/
def freshCardId (db : DB) : Nat :=
  (db.cards.map (fun c => c.id)).foldr max 0 + 1

/-- Model of `db.query(User).filter(User.telegram_id == str(user_id)).first()`. -/
def findUserByTelegram (db : DB) (user_id : Nat) : Option UserRec :=
  db.users.find? (fun u => u.telegram_id == toString user_id)

/-- The `/api/buy_card` handler (main.py lines 85-170).

`validInit` is the result of `security_manager.verify_telegram_init_data`;
`rateOk` the result of the Redis rate-limit check.  The validation cascade
follows the source order: Telegram data, user lookup and block check, round
lookup (`status == 'waiting'`), room lookup, balance check, rate limit, then
card generation — whose first statement evaluates `random.SystemRandom()` and
therefore needs the unbound name `random` (see `main_random_module`).  The
creation/deduction/commit block after it is transcribed but unreachable. -/
def buy_card (validInit rateOk : Bool) (user_id round_id : Nat) (db : DB) :
    Except ApiErr BuyResult × DB :=
  if !validInit then
    (Except.error (ApiErr.http 401 "Invalid initialization data"), db)
  else
    match findUserByTelegram db user_id with
    | none => (Except.error (ApiErr.http 403 "User not found or blocked"), db)
    | some user =>
      if user.is_blocked then
        (Except.error (ApiErr.http 403 "User not found or blocked"), db)
      else
        match db.rounds.find?
            (fun r => r.id == round_id && r.status == RoundStatus.waiting) with
        | none => (Except.error (ApiErr.http 400 "Round not available"), db)
        | some round =>
          match findRoom db round.room_id with
          | none =>
              -- line 113 would raise on `None.card_price`
              (Except.error (ApiErr.pyErr PyErr.attributeError), db)
          | some room =>
            if user.wallet_balance < room.card_price then
              (Except.error (ApiErr.http 400 "Insufficient balance"), db)
            else if !rateOk then
              (Except.error (ApiErr.http 429 "Too many requests"), db)
            else
              match main_random_module with
              | none =>
                  -- line 128: the name `random` is unbound in main.py
                  (Except.error (ApiErr.pyErr PyErr.nameError), db)
              | some picks =>
                  let numbers := genCard picks
                  let card : CardRec :=
                    { id := freshCardId db
                      round_id := round_id
                      user_id := user.id
                      numbers := numbers
                      claimed := false }
                  let user' :=
                    { user with wallet_balance := user.wallet_balance - room.card_price }
                  let round' := { round with total_pool := round.total_pool + room.card_price }
                  let txn : TransactionRec :=
                    { user_id := user.id, amount := -room.card_price, type := "buy_card" }
                  let db' := updateUser (updateRound db round') user'
                  let db'' := { db' with
                    cards := db'.cards ++ [card]
                    transactions := db'.transactions ++ [txn] }
                  (Except.ok
                    { card_id := card.id, numbers := numbers,
                      balance := user'.wallet_balance }, db'')

/-! ## Concrete fixtures used by the closed theorems and witnesses -/

/-- A card of user 7 for round 1 whose first row is covered once 1..12 are
called (the Scenario-A shape of the spec). -/
def cardA : CardRec :=
  { id := 10, round_id := 1, user_id := 7
    numbers := [[1, 2, 3, 4, 5], [20, 25, 30, 35, 40], [50, 55, 60, 65, 70]]
    claimed := false }

/-- An active round of room 1 with pool 3 and the numbers 1..12 called. -/
def roundA : RoundRec :=
  { id := 1, room_id := 1, status := RoundStatus.active
    total_pool := 3, jackpot_pool := 0
    winner_id := none, winner_amount := 0
    numbers_called := List.range' 1 12 }

/-- User 7 with balance 5. -/
def userA : UserRec :=
  { id := 7, telegram_id := "7", wallet_balance := 5, is_blocked := false }

/-- The store for the Scenario-A winning claim. -/
def dbA : DB :=
  { rooms := [{ id := 1, card_price := 1 }]
    rounds := [roundA]
    cards := [cardA]
    users := [userA]
    transactions := [] }

/-- An active round with all 75 numbers called. -/
def round75 : RoundRec := { roundA with numbers_called := List.range' 1 75 }

/-- An active round whose stored call sequence is `[2, 1]` (2 was called first). -/
def round21 : RoundRec := { roundA with numbers_called := [2, 1] }

/-- The same winning card as `cardA`, but created for round 2 instead of
round 1. -/
def card9 : CardRec := { cardA with round_id := 2 }

/-- A second active round of room 1 with nothing called yet. -/
def round2 : RoundRec :=
  { roundA with id := 2, total_pool := 0, numbers_called := [] }

/-- The store for the cross-round claim: the card submitted against round 1
belongs to round 2. -/
def db9 : DB := { dbA with rounds := [roundA, round2], cards := [card9] }

/-- Called numbers for the near-miss card: only 1..4 have been called. -/
def called4 : List Nat := [1, 2, 3, 4]

/-- A card each of whose rows has at most 4 of its 5 numbers among `called4`. -/
def rows4 : List (List Nat) :=
  [[1, 2, 3, 4, 5], [10, 11, 12, 13, 14], [20, 21, 22, 23, 24]]

/-- The near-miss card as a database row. -/
def card4 : CardRec :=
  { id := 11, round_id := 1, user_id := 7, numbers := rows4, claimed := false }

/-- Round 1 with only `called4` called. -/
def round4 : RoundRec := { roundA with numbers_called := called4 }

/-- The store for the near-miss claim. -/
def db4 : DB := { dbA with rounds := [round4], cards := [card4] }

/-- A waiting round of room 1, open for card purchases. -/
def round10 : RoundRec :=
  { roundA with
    id := 3
    status := RoundStatus.waiting
    total_pool := 0
    numbers_called := [] }

/-- The store for the buy-card request. -/
def db10 : DB := { dbA with rounds := [round10] }

/-- A configuration whose jackpot threshold is set to 10 instead of the
default 40 (config.py reads `JACKPOT_THRESHOLD` from the environment). -/
def settings10 : Settings := { defaultSettings with JACKPOT_THRESHOLD := 10 }

/-! ## Helper lemmas -/

/-- Membership in the scheduler's draw pool: exactly the numbers 1..75 that
have not been called. -/
theorem mem_availableOf (called : List Nat) (m : Nat) :
    m ∈ availableOf called ↔ 1 ≤ m ∧ m ≤ 75 ∧ m ∉ called := by
  unfold availableOf
  rw [List.mem_filter]
  simp only [List.mem_range'_1, Bool.not_eq_true', ← Bool.not_eq_true, List.elem_iff]
  constructor
  · rintro ⟨⟨h1, h2⟩, h3⟩
    exact ⟨h1, by omega, by simpa using h3⟩
  · rintro ⟨h1, h2, h3⟩
    exact ⟨⟨h1, by omega⟩, by simpa using h3⟩

/-- The draw pool lists each number at most once. -/
theorem nodup_availableOf (called : List Nat) : (availableOf called).Nodup :=
  (List.nodup_range' 1 75).filter _

/-- A duplicate-free list of numbers drawn from 1..75 has at most 75 entries. -/
theorem nodup_length_le_75 (l : List Nat) (hnd : l.Nodup)
    (hbd : ∀ m ∈ l, 1 ≤ m ∧ m ≤ 75) : l.length ≤ 75 := by
  have h1 : l.toFinset.card = l.length := List.toFinset_card_of_nodup hnd
  have h2 : l.toFinset ⊆ (List.range' 1 75).toFinset := by
    intro x hx
    rw [List.mem_toFinset] at hx
    rw [List.mem_toFinset, List.mem_range'_1]
    have := hbd x hx
    omega
  have h3 := Finset.card_le_card h2
  rw [List.toFinset_card_of_nodup (List.nodup_range' 1 75), h1,
    List.length_range'] at h3
  exact h3

/-- A five-number row counts as marked-5 exactly when every one of its entries
is among the called numbers. -/
theorem row_marked_iff (row called : List Nat) (h5 : row.length = 5) :
    ((row.filter (fun num => called.contains num)).length == 5) = true ↔
      ∀ n ∈ row, n ∈ called := by
  rw [beq_iff_eq]
  constructor
  · intro hlen n hn
    by_contra hnc
    have hlt : (row.filter (fun num => called.contains num)).length < row.length :=
      List.length_filter_lt_length_iff_exists.mpr
        ⟨n, hn, by simpa [List.elem_iff] using hnc⟩
    omega
  · intro hall
    have hfe : row.filter (fun num => called.contains num) = row :=
      List.filter_eq_self.mpr (fun a ha => by simpa [List.elem_iff] using hall a ha)
    rw [hfe, h5]

/-- The row walk of `_verify_win` reports a win exactly when some row is fully
covered by the called numbers. -/
theorem verify_win_iff (rows : List (List Nat)) (called : List Nat)
    (h5 : ∀ row ∈ rows, row.length = 5) :
    (verify_win rows called).1 = true ↔ ∃ row ∈ rows, ∀ n ∈ row, n ∈ called := by
  induction rows with
  | nil => simp [verify_win]
  | cons row rest ih =>
    have h5r : row.length = 5 := h5 row (List.mem_cons_self _ _)
    have h5rest : ∀ r ∈ rest, r.length = 5 :=
      fun r hr => h5 r (List.mem_cons_of_mem _ hr)
    by_cases hm : ((row.filter (fun num => called.contains num)).length == 5) = true
    · simp only [verify_win, hm, if_true, List.mem_cons]
      constructor
      · intro _
        exact ⟨row, Or.inl rfl, (row_marked_iff row called h5r).mp hm⟩
      · intro _
        trivial
    · have hmf : ((row.filter (fun num => called.contains num)).length == 5) = false :=
        by simpa using hm
      simp only [verify_win, hmf, Bool.false_eq_true, if_false]
      rw [ih h5rest]
      constructor
      · rintro ⟨r, hr, hall⟩
        exact ⟨r, List.mem_cons_of_mem _ hr, hall⟩
      · rintro ⟨r, hr, hall⟩
        rcases List.mem_cons.mp hr with rfl | hr'
        · exact absurd ((row_marked_iff r called h5r).mpr hall) hm
        · exact ⟨r, hr', hall⟩

/-! ## Theorems -/

/-- Claim C1 (code bug): on the Scenario-A winning claim (pool 3, the numbers
1..12 called, the card's first row covered, the round lock acquired) the
settlement step does not complete: `process_claim` raises at the payout
computation, because workers.py line 204 reads the nonexistent attribute
`settings.JACKPO​COMMISSION` (zero-width space inside the name), so the winner
is credited nothing and the store is left untouched — against the claim that
`total_pool × winner_rate + total_pool × jackpot_rate` is credited exactly
once.  The configured rates themselves do sum to 1 as the claim states. -/
theorem C1_winning_claim_settlement_crashes :
    process_claim defaultSettings true 1 10 7 dbA =
      (Except.error PyErr.attributeError, dbA,
        [Event.acquire "claim:1", Event.release "claim:1"])
    ∧ defaultSettings.HOUSE_COMMISSION + defaultSettings.WINNER_COMMISSION +
        defaultSettings.JACKPOT_COMMISSION = 1 := by
  constructor
  · rfl
  · norm_num [defaultSettings]

/-- Claim C2, counterexample: the scheduler's forced completion at 75 calls
(`RoundWorker._end_round`, reached from `_process_round` once
`len(numbers_called) >= 75`) writes the terminal status `completed` while
holding no lock at all, so the write is not protected by the round-scoped
lock the claim requires. -/
theorem C2_forced_completion_writes_terminal_without_lock :
    (end_round round75).1.status = RoundStatus.completed
    ∧ lockSafe (end_round round75).2 = false
    ∧ process_round defaultSettings.NUMBER_CALL_INTERVAL (some 100) round75 =
        SchedulerStep.endedRound := by
  refine ⟨rfl, rfl, rfl⟩

/-- Claim C3, counterexample: with the stored call sequence `[2, 1]` (2 called
first, then 1), CPython may enumerate the set `{2, 1}` as `[1, 2]` — an
admissible enumeration, being a permutation of the distinct called values — and
then `list(called) + [number]` stores `[1, 2, 3]`: the pre-existing entries are
reordered, against the claim that they are left unchanged in their original
call order. -/
theorem C3_rebuild_from_set_breaks_call_order :
    List.Perm [1, 2] round21.numbers_called.dedup
    ∧ call_number [1, 2] 0 round21 =
        some (3, { round21 with numbers_called := [1, 2, 3] })
    ∧ [1, 2, 3] ≠ round21.numbers_called ++ [3] := by
  refine ⟨by decide, rfl, by decide⟩

/-- Claim C5, counterexample: with `JACKPOT_THRESHOLD` configured to 10 and 20
numbers called, the code's jackpot determination (workers.py line 198, the
literal `<= 40`) reports a jackpot even though the called count exceeds the
configured threshold — the setting is never consulted. -/
theorem C5_configured_threshold_ignored :
    is_jackpot_of (List.range' 1 20) = true
    ∧ ¬((List.range' 1 20).length ≤ settings10.JACKPOT_THRESHOLD) := by
  exact ⟨rfl, by decide⟩

/-- Claim C8, counterexample: in a poll cycle scanning rounds 1 and 2 where
processing round 1 raises, the cycle aborts at once — round 2, scanned in the
same cycle, is not processed — because `_process_rounds` has no per-round
exception handling. -/
theorem C8_failure_aborts_remaining_rounds_in_cycle :
    process_rounds_cycle (fun r => r == 1) [1, 2] = ([], true)
    ∧ 2 ∉ (process_rounds_cycle (fun r => r == 1) [1, 2]).1 := by
  exact ⟨rfl, by decide⟩

/-- Claim C9, counterexample: the card submitted against round 1 belongs to
round 2, yet `process_claim` accepts it (its card lookup filters only by card
id and owner) and evaluates it against round 1's called numbers — the claim
reaches the payout step, which is only reachable after every validation and the
win check passed.  But the card cannot settle the round: the payout step raises
and the store is returned unchanged, so the final conjunct of the claim ("can
settle that Round") fails.  Submitting the same card against its own round 2
(nothing called there) is instead rejected with "No winning line yet", showing
the evaluation really uses the given round's numbers. -/
theorem C9_cross_round_card_reaches_payout_but_cannot_settle :
    findCard db9 10 7 = some card9
    ∧ card9.round_id = 2
    ∧ (2 : Nat) ≠ 1
    ∧ process_claim defaultSettings true 1 10 7 db9 =
        (Except.error PyErr.attributeError, db9,
          [Event.acquire "claim:1", Event.release "claim:1"])
    ∧ (process_claim defaultSettings true 2 10 7 db9).1 =
        Except.ok (mkFailure "No winning line yet") := by
  refine ⟨rfl, rfl, by decide, rfl, rfl⟩

/-- Claim C3, amended: one number-call step draws one number from the
complement of the already-called values (every complement value is drawn for
some random index, and nothing else can be drawn) and appends it to the end of
a list rebuilt from the set of already-called numbers: the result is
`perm ++ [n]` where `perm` is the runtime's enumeration of the distinct called
values — so the old entries are all present exactly once but possibly
reordered — and the new sequence is duplicate-free, one entry longer, and never
exceeds 75 entries. -/
theorem C3_call_number_append_invariants
    (round : RoundRec) (perm : List Nat) (k n : Nat) (round' : RoundRec)
    (hperm : perm.Perm round.numbers_called.dedup)
    (hnd : round.numbers_called.Nodup)
    (hbd : ∀ m ∈ round.numbers_called, 1 ≤ m ∧ m ≤ 75)
    (h : call_number perm k round = some (n, round')) :
    round'.numbers_called = perm ++ [n]
    ∧ (1 ≤ n ∧ n ≤ 75 ∧ n ∉ round.numbers_called)
    ∧ round'.numbers_called.Nodup
    ∧ round'.numbers_called.length = round.numbers_called.length + 1
    ∧ round'.numbers_called.length ≤ 75
    ∧ (∀ m, m ∈ round'.numbers_called ↔ m ∈ round.numbers_called ∨ m = n)
    ∧ (∀ m ∈ availableOf round.numbers_called, ∃ k2,
        call_number perm k2 round =
          some (m, { round with numbers_called := perm ++ [m] })) := by
  have hmemperm : ∀ m, m ∈ perm ↔ m ∈ round.numbers_called := by
    intro m
    exact hperm.mem_iff.trans List.mem_dedup
  have hpermnd : perm.Nodup := hperm.nodup_iff.mpr (List.nodup_dedup _)
  have hpermlen : perm.length = round.numbers_called.length := by
    rw [hperm.length_eq, List.Nodup.dedup hnd]
  have havne : (availableOf round.numbers_called).isEmpty = false := by
    cases hEmp : (availableOf round.numbers_called).isEmpty
    · rfl
    · exfalso
      simp [call_number, hEmp] at h
  have hlenpos : 0 < (availableOf round.numbers_called).length := by
    cases hl : availableOf round.numbers_called with
    | nil => rw [hl] at havne; simp at havne
    | cons a t => simp [hl]
  have hidx : k % (availableOf round.numbers_called).length <
      (availableOf round.numbers_called).length := Nat.mod_lt _ hlenpos
  simp only [call_number, havne, Bool.false_eq_true, if_false, Option.some.injEq,
    Prod.mk.injEq] at h
  obtain ⟨hn1, hn2⟩ := h
  have hnav : n ∈ availableOf round.numbers_called := by
    rw [← hn1, List.getD_eq_getElem _ _ hidx]
    exact List.getElem_mem _
  have hnprop := (mem_availableOf round.numbers_called n).mp hnav
  have hcalled' : round'.numbers_called = perm ++ [n] := by
    rw [← hn2]
    exact congrArg (fun x => perm ++ [x]) hn1
  have hnnotperm : n ∉ perm := fun hc => hnprop.2.2 ((hmemperm n).mp hc)
  have hnd' : round'.numbers_called.Nodup := by
    rw [hcalled']
    exact List.nodup_append.mpr ⟨hpermnd, List.nodup_singleton n,
      fun a ha hb => by
        rw [List.mem_singleton] at hb
        exact hnnotperm (hb ▸ ha)⟩
  have hlen' : round'.numbers_called.length = round.numbers_called.length + 1 := by
    rw [hcalled', List.length_append, hpermlen]
    rfl
  have hmem' : ∀ m, m ∈ round'.numbers_called ↔ m ∈ round.numbers_called ∨ m = n := by
    intro m
    rw [hcalled', List.mem_append, List.mem_singleton, hmemperm]
  refine ⟨hcalled', hnprop, hnd', hlen', ?_, hmem', ?_⟩
  · apply nodup_length_le_75 _ hnd'
    intro m hm
    rcases (hmem' m).mp hm with hold | hnew
    · exact hbd m hold
    · exact hnew ▸ ⟨hnprop.1, hnprop.2.1⟩
  · intro m hm
    refine ⟨(availableOf round.numbers_called).indexOf m, ?_⟩
    have hilt : (availableOf round.numbers_called).indexOf m <
        (availableOf round.numbers_called).length := List.indexOf_lt_length.2 hm
    simp only [call_number, havne, Bool.false_eq_true, if_false, Option.some.injEq,
      Prod.mk.injEq]
    rw [Nat.mod_eq_of_lt hilt, List.getD_eq_getElem _ _ hilt,
      List.getElem_indexOf hilt]
    exact ⟨rfl, rfl⟩

/-- Witness for `C3_call_number_append_invariants` at the concrete round whose
call sequence is `[2, 1]`, enumeration `[1, 2]`, random index 0. -/
theorem C3_call_number_append_invariants_witness :
    ({ round21 with numbers_called := [1, 2, 3] } : RoundRec).numbers_called =
      [1, 2] ++ [3]
    ∧ (1 ≤ 3 ∧ 3 ≤ 75 ∧ 3 ∉ round21.numbers_called) := by
  have h := C3_call_number_append_invariants round21 [1, 2] 0 3
    { round21 with numbers_called := [1, 2, 3] }
    (by decide) (by decide) (by decide) rfl
  exact ⟨h.1, h.2.1⟩

/-- Claim C2, amended: the claim-settlement path follows the lock discipline —
every event trace `process_claim` can produce satisfies `lockSafe` (any
terminal-status write in it happens while `claim:{round_id}` is held) and
every lock it acquires is released by the end of the trace.  The scheduler's
forced completion, by contrast, performs its terminal write with no lock held
(`C2_forced_completion_writes_terminal_without_lock`), so at-most-one-terminal-
transition is not enforced by locking; moreover the settlement path's own
terminal write is unreachable, because the payout computation above it raises
(workers.py line 204). -/
theorem C2_claim_path_lock_discipline
    (s : Settings) (lockAcquired : Bool) (round_id card_id user_id : Nat)
    (db : DB) (res : Except PyErr ClaimResult) (db' : DB) (evs : List Event)
    (h : process_claim s lockAcquired round_id card_id user_id db = (res, db', evs)) :
    lockSafe evs = true ∧ locksAfter [] evs = [] := by
  unfold process_claim at h
  repeat' split at h
  all_goals rw [Prod.mk.injEq, Prod.mk.injEq] at h
  all_goals obtain ⟨rfl, rfl, rfl⟩ := h
  all_goals simp_all [lockSafe, lockSafeFrom, locksAfter, List.erase_cons_head,
    settings_JACKPO_zwsp_COMMISSION, RoundStatus.isTerminal]

/-- Witness for `C2_claim_path_lock_discipline` on the Scenario-A store. -/
theorem C2_claim_path_lock_discipline_witness :
    lockSafe [Event.acquire "claim:1", Event.release "claim:1"] = true
    ∧ locksAfter [] [Event.acquire "claim:1", Event.release "claim:1"] = [] :=
  C2_claim_path_lock_discipline defaultSettings true 1 10 7 dbA
    (Except.error PyErr.attributeError) dbA
    [Event.acquire "claim:1", Event.release "claim:1"] rfl

/-- Claim C5, amended: the jackpot determination is the literal comparison
`len(numbers_called) <= 40`; it coincides with the configured
`JACKPOT_THRESHOLD` exactly when that setting has its default value 40 (which
`defaultSettings` does), and ignores every other configured value
(`C5_configured_threshold_ignored`). -/
theorem C5_jackpot_literal_forty (s : Settings) (called : List Nat) :
    is_jackpot_of called = decide (called.length ≤ 40)
    ∧ defaultSettings.JACKPOT_THRESHOLD = 40
    ∧ (s.JACKPOT_THRESHOLD = 40 →
        (is_jackpot_of called = true ↔ called.length ≤ s.JACKPOT_THRESHOLD)) := by
  refine ⟨rfl, rfl, fun h40 => ?_⟩
  rw [h40]
  unfold is_jackpot_of
  exact decide_eq_true_iff

/-- Witness for `C5_jackpot_literal_forty` at the default configuration and
twelve called numbers. -/
theorem C5_jackpot_literal_forty_witness :
    is_jackpot_of (List.range' 1 12) = true
    ∧ (List.range' 1 12).length ≤ defaultSettings.JACKPOT_THRESHOLD := by
  have h := C5_jackpot_literal_forty defaultSettings (List.range' 1 12)
  exact ⟨by decide, (h.2.2 h.2.1).mp (by decide)⟩

/-- Claim C8, amended: a failure while processing one round is caught only at
the poll-cycle level, so it aborts the remaining rounds of that same cycle —
the cycle processes exactly the prefix of scanned rounds before the first
failing one, and raises exactly when some scanned round fails — but it does
not stop the poll loop: the loop runs one cycle for every poll whose running
flag is set and exits exactly at the first poll after the stop signal. -/
theorem C8_loop_survives_cycle_failures (fails : Nat → Bool) :
    (∀ ids : List Nat,
        process_rounds_cycle fails ids =
          (ids.takeWhile (fun r => !fails r), ids.any fails))
    ∧ (∀ polls : List (Bool × List Nat),
        round_loop fails polls =
          (polls.takeWhile (fun p => p.1)).map
            (fun p => process_rounds_cycle fails p.2)) := by
  constructor
  · intro ids
    induction ids with
    | nil => rfl
    | cons r rest ih =>
      by_cases hr : fails r
      · simp [process_rounds_cycle, hr, List.takeWhile, List.any]
      · simp only [process_rounds_cycle, hr, if_false, List.takeWhile_cons,
          List.any_cons, ih]
        simp [hr]
  · intro polls
    induction polls with
    | nil => rfl
    | cons p rest ih =>
      obtain ⟨running, ids⟩ := p
      cases running
      · simp [round_loop, List.takeWhile_cons]
      · simp [round_loop, List.takeWhile_cons, ih]

/-- Claim C4 (confirmed): the win check reports a win iff at least one of the
card's rows (each of 5 numbers) has all 5 numbers present in the called set,
and a claim on a card each of whose rows misses at least one called number
(hence has at most 4 of 5 called) is rejected with "No winning line yet",
leaving the store unchanged. -/
theorem C4_win_check_row_iff_and_rejection
    (rows : List (List Nat)) (called : List Nat)
    (h5 : ∀ row ∈ rows, row.length = 5)
    (s : Settings) (rid cid uid : Nat) (db : DB) (rr : RoundRec) (cc : CardRec)
    (res : Except PyErr ClaimResult) (db' : DB) (evs : List Event)
    (hR : findRound db rid = some rr) (hC : findCard db cid uid = some cc)
    (hst : rr.status = RoundStatus.active) (hcl : cc.claimed = false)
    (hcn : cc.numbers = rows) (hnc : rr.numbers_called = called)
    (hmiss : ∀ row ∈ rows, ∃ x ∈ row, x ∉ called)
    (hpc : process_claim s true rid cid uid db = (res, db', evs)) :
    ((verify_win rows called).1 = true ↔ ∃ row ∈ rows, ∀ n ∈ row, n ∈ called)
    ∧ res = Except.ok (mkFailure "No winning line yet")
    ∧ db' = db := by
  have hvw : (verify_win rows called).1 = false := by
    cases hv : (verify_win rows called).1
    · rfl
    · exfalso
      obtain ⟨r, hr, hall⟩ := (verify_win_iff rows called h5).mp hv
      obtain ⟨x, hx, hxnc⟩ := hmiss r hr
      exact hxnc (hall x hx)
  simp only [process_claim, Bool.not_true, Bool.false_eq_true, if_false,
    hR, hC, hst, hcl, hcn, hnc, hvw, Bool.not_false, if_true, ne_eq,
    not_true_eq_false, ite_false, ite_true] at hpc
  rw [Prod.mk.injEq, Prod.mk.injEq] at hpc
  exact ⟨verify_win_iff rows called h5, hpc.1.symm, hpc.2.1.symm⟩

/-- Witness for `C4_win_check_row_iff_and_rejection`: the near-miss card
(every row has 4 of 5 numbers called) is rejected and the store is
unchanged. -/
theorem C4_win_check_row_iff_and_rejection_witness :
    (process_claim defaultSettings true 1 11 7 db4).1 =
      Except.ok (mkFailure "No winning line yet")
    ∧ (process_claim defaultSettings true 1 11 7 db4).2.1 = db4 := by
  have h := C4_win_check_row_iff_and_rejection rows4 called4 (by decide)
    defaultSettings 1 11 7 db4 round4 card4
    (process_claim defaultSettings true 1 11 7 db4).1
    (process_claim defaultSettings true 1 11 7 db4).2.1
    (process_claim defaultSettings true 1 11 7 db4).2.2
    rfl rfl rfl rfl rfl rfl (by decide) rfl
  exact ⟨h.2.1, h.2.2⟩

/-- Claim C7 (confirmed): every claim attempt that returns a failure result
(`success = false`, i.e. one of the five rejection messages) leaves the store
— rounds with their status, winner fields and called sequences, cards with
their claimed flags, user balances, and the transaction ledger — exactly as it
was. -/
theorem C7_failure_paths_leave_state_unchanged
    (s : Settings) (lockAcquired : Bool) (rid cid uid : Nat) (db : DB)
    (res : Except PyErr ClaimResult) (db' : DB) (evs : List Event)
    (q : ClaimResult)
    (hpc : process_claim s lockAcquired rid cid uid db = (res, db', evs))
    (hq : res = Except.ok q) (_hfail : q.success = false) :
    db' = db := by
  unfold process_claim at hpc
  repeat' split at hpc
  all_goals rw [Prod.mk.injEq, Prod.mk.injEq] at hpc
  all_goals obtain ⟨rfl, rfl, rfl⟩ := hpc
  all_goals simp_all [mkFailure, settings_JACKPO_zwsp_COMMISSION]

/-- Witness for `C7_failure_paths_leave_state_unchanged` on the busy
rejection. -/
theorem C7_failure_paths_leave_state_unchanged_witness :
    (process_claim defaultSettings false 1 10 7 dbA).2.1 = dbA :=
  C7_failure_paths_leave_state_unchanged defaultSettings false 1 10 7 dbA
    (process_claim defaultSettings false 1 10 7 dbA).1
    (process_claim defaultSettings false 1 10 7 dbA).2.1
    (process_claim defaultSettings false 1 10 7 dbA).2.2
    (mkFailure "Claim is being processed") rfl rfl rfl

/-- Claim C9, amended: `process_claim` indeed never compares the card's
`round_id` with the claimed round (see
`C9_cross_round_card_reaches_payout_but_cannot_settle` for the concrete
cross-round acceptance), but no claim can ever settle a round: every `ok`
result the function can return is a failure (`success = false`) — the winning
path raises at the payout computation instead of settling. -/
theorem C9_process_claim_never_succeeds
    (s : Settings) (lockAcquired : Bool) (rid cid uid : Nat) (db : DB)
    (res : Except PyErr ClaimResult) (db' : DB) (evs : List Event)
    (q : ClaimResult)
    (hpc : process_claim s lockAcquired rid cid uid db = (res, db', evs))
    (hq : res = Except.ok q) :
    q.success = false := by
  unfold process_claim at hpc
  repeat' split at hpc
  all_goals rw [Prod.mk.injEq, Prod.mk.injEq] at hpc
  all_goals obtain ⟨rfl, rfl, rfl⟩ := hpc
  all_goals simp_all [mkFailure, settings_JACKPO_zwsp_COMMISSION]
  all_goals exact hq ▸ rfl

/-- Witness for `C9_process_claim_never_succeeds` on the busy rejection. -/
theorem C9_process_claim_never_succeeds_witness :
    (mkFailure "Claim is being processed").success = false :=
  C9_process_claim_never_succeeds defaultSettings false 1 10 7 db9
    (process_claim defaultSettings false 1 10 7 db9).1
    (process_claim defaultSettings false 1 10 7 db9).2.1
    (process_claim defaultSettings false 1 10 7 db9).2.2
    (mkFailure "Claim is being processed") rfl rfl

/-- Claim C6 (confirmed): every failure result of `process_claim` carries one
of exactly five messages, each produced under its condition in the source's
check order: "Claim is being processed" iff the round lock was not acquired;
"Invalid round or card" iff (under the lock) the round or the card lookup
missed; "Round is not active" iff (both lookups hit) the round's status is not
`active`; "Card already claimed" iff (round active) the card's claimed flag is
already set; "No winning line yet" iff (card unclaimed) the win check finds no
fully-covered row.  Moreover every `ok` result is a failure carrying one of
those five messages. -/
theorem C6_failure_message_characterization
    (s : Settings) (lockAcquired : Bool) (rid cid uid : Nat) (db : DB)
    (res : Except PyErr ClaimResult) (db' : DB) (evs : List Event)
    (hpc : process_claim s lockAcquired rid cid uid db = (res, db', evs)) :
    (res = Except.ok (mkFailure "Claim is being processed") ↔ lockAcquired = false)
    ∧ (res = Except.ok (mkFailure "Invalid round or card") ↔
        lockAcquired = true ∧
          (findRound db rid = none ∨ findCard db cid uid = none))
    ∧ (res = Except.ok (mkFailure "Round is not active") ↔
        lockAcquired = true ∧ ∃ rr cc, findRound db rid = some rr ∧
          findCard db cid uid = some cc ∧ rr.status ≠ RoundStatus.active)
    ∧ (res = Except.ok (mkFailure "Card already claimed") ↔
        lockAcquired = true ∧ ∃ rr cc, findRound db rid = some rr ∧
          findCard db cid uid = some cc ∧ rr.status = RoundStatus.active ∧
          cc.claimed = true)
    ∧ (res = Except.ok (mkFailure "No winning line yet") ↔
        lockAcquired = true ∧ ∃ rr cc, findRound db rid = some rr ∧
          findCard db cid uid = some cc ∧ rr.status = RoundStatus.active ∧
          cc.claimed = false ∧
          (verify_win cc.numbers rr.numbers_called).1 = false)
    ∧ (∀ q, res = Except.ok q → q.success = false ∧
        q.message ∈ ["Claim is being processed", "Invalid round or card",
          "Round is not active", "Card already claimed",
          "No winning line yet"]) := by
  unfold process_claim at hpc
  repeat' split at hpc
  all_goals rw [Prod.mk.injEq, Prod.mk.injEq] at hpc
  all_goals obtain ⟨rfl, rfl, rfl⟩ := hpc
  all_goals simp_all [mkFailure, settings_JACKPO_zwsp_COMMISSION]

/-- Witness for `C6_failure_message_characterization` on the busy
rejection. -/
theorem C6_failure_message_characterization_witness :
    (process_claim defaultSettings false 1 10 7 dbA).1 =
      Except.ok (mkFailure "Claim is being processed") :=
  (C6_failure_message_characterization defaultSettings false 1 10 7 dbA
    (process_claim defaultSettings false 1 10 7 dbA).1
    (process_claim defaultSettings false 1 10 7 dbA).2.1
    (process_claim defaultSettings false 1 10 7 dbA).2.2 rfl).1.mpr rfl

/-- Claim C10 (confirmed): every buy-card request that passes all validation
(valid Telegram data, user found and not blocked, round found in `waiting`
status, room found, sufficient balance, rate limit passed) fails with
`NameError` at the card-generation step — main.py never imports `random` — so
no card is created, no balance deducted, no pool updated: the store is
returned unchanged. -/
theorem C10_buy_card_raises_nameerror
    (db : DB) (user_id round_id : Nat) (user : UserRec) (round : RoundRec)
    (room : RoomRec) (res : Except ApiErr BuyResult) (db' : DB)
    (hU : findUserByTelegram db user_id = some user)
    (hblk : user.is_blocked = false)
    (hRd : db.rounds.find? (fun r => r.id == round_id &&
        r.status == RoundStatus.waiting) = some round)
    (hRm : findRoom db round.room_id = some room)
    (hbal : ¬ user.wallet_balance < room.card_price)
    (h : buy_card true true user_id round_id db = (res, db')) :
    res = Except.error (ApiErr.pyErr PyErr.nameError) ∧ db' = db := by
  simp only [buy_card, Bool.not_true, Bool.false_eq_true, if_false, hU, hblk,
    hRd, hRm, hbal, main_random_module, ite_false, ite_true] at h
  rw [Prod.mk.injEq] at h
  exact ⟨h.1.symm, h.2.symm⟩

/-- Witness for `C10_buy_card_raises_nameerror` on the waiting round of the
fixture store. -/
theorem C10_buy_card_raises_nameerror_witness :
    (buy_card true true 7 3 db10).1 = Except.error (ApiErr.pyErr PyErr.nameError)
    ∧ (buy_card true true 7 3 db10).2 = db10 :=
  C10_buy_card_raises_nameerror db10 7 3 userA round10
    { id := 1, card_price := 1 }
    (buy_card true true 7 3 db10).1 (buy_card true true 7 3 db10).2
    rfl rfl rfl rfl (by decide) rfl

end MKK
